import Mathlib

/-!
Verification of the polygon / collision core of the SpaceDebris asteroids
game (`polygon_object.go`, `main.go`).

Shallow embedding conventions:
* Go `float64` values are modelled as exact rationals (`ℚ`).  The numeric
  literals of the source (`0.6`, `15.0`, `1e-10`, ...) are modelled by the
  corresponding exact rationals; `math.Pi` is modelled by the exact rational
  value of the IEEE-754 double that `math.Pi` denotes.
* The transcendental functions `math.Cos` / `math.Sin` are modelled by an
  abstract oracle `trig : ℚ → ℚ × ℚ` returning the pair (cosine, sine) of its
  argument; every theorem quantifies over the oracle, so the results hold for
  the actual cosine/sine in particular.
* Random draws (`rand.Intn`, `rand.Float64`) are passed in explicitly as a
  `SplitRand` record of the draws consumed by one `splitAsteroid` call.
* Drawing is modelled by its observable output: the list of stroked line
  segments `Draw` emits, together with the updated object state.
-/

/-- 2D point or vector (`Vector2` of `polygon_object.go`). -/
structure Vector2 where
  x : ℚ
  y : ℚ
deriving DecidableEq, Repr

/-- Origin vector, used as the irrelevant default for in-range list indexing. -/
def v0 : Vector2 := ⟨0, 0⟩

/-- An 8-bit RGBA color value (`color.RGBA` of Go's image/color). -/
structure RGBA where
  r : ℕ
  g : ℕ
  b : ℕ
  a : ℕ
deriving DecidableEq, Repr

/-- `color.White` (each 8-bit channel 0xff). -/
def colorWhite : RGBA := ⟨255, 255, 255, 255⟩

/-- The reddish tint `color.RGBA{255, 100, 100, 255}` used by `splitAsteroid`. -/
def redColor : RGBA := ⟨255, 100, 100, 255⟩

/-- The exact rational value of the IEEE-754 double `math.Pi`. -/
def mathPi : ℚ := 884279719003555 / 281474976710656

/-- The cosine/sine oracle standing for `math.Cos` and `math.Sin`:
`trig a = (cos a, sin a)`. -/
abbrev Trig := ℚ → ℚ × ℚ

/-- `PolygonObject` of `polygon_object.go`. -/
structure PolygonObject where
  Vertices : List Vector2
  Position : Vector2
  Velocity : Vector2
  Rotation : ℚ
  RotationSpeed : ℚ
  Scale : ℚ
  Color : RGBA
  LineWidth : ℚ
  FadeStartColor : RGBA
  FadeEndColor : RGBA
  FadeProgress : ℚ
  FadeSpeed : ℚ
  IsFading : Bool
  drawCount : ℕ
  Trail : List (List Vector2)
deriving DecidableEq, Repr

/-- The zero value of `PolygonObject`, used as the irrelevant default for
in-range list indexing. -/
def pdefault : PolygonObject :=
  { Vertices := [], Position := v0, Velocity := v0, Rotation := 0,
    RotationSpeed := 0, Scale := 0, Color := ⟨0, 0, 0, 0⟩, LineWidth := 0,
    FadeStartColor := ⟨0, 0, 0, 0⟩, FadeEndColor := ⟨0, 0, 0, 0⟩,
    FadeProgress := 0, FadeSpeed := 0, IsFading := false, drawCount := 0,
    Trail := [] }

/-- `getTransformedVertices`: scale, rotate (cos/sin of `Rotation` supplied by
the oracle), then translate every local vertex. -/
def getTransformedVertices (trig : Trig) (p : PolygonObject) : List Vector2 :=
  let c := (trig p.Rotation).1
  let s := (trig p.Rotation).2
  p.Vertices.map (fun vertex =>
    let scaledX := vertex.x * p.Scale
    let scaledY := vertex.y * p.Scale
    let rotatedX := scaledX * c - scaledY * s
    let rotatedY := scaledX * s + scaledY * c
    Vector2.mk (rotatedX + p.Position.x) (rotatedY + p.Position.y))

/-- `BoundingBox` of `polygon_object.go`. -/
structure BoundingBox where
  MinX : ℚ
  MinY : ℚ
  MaxX : ℚ
  MaxY : ℚ
deriving DecidableEq, Repr

/-- `GetBoundingBox`: min/max fold over the transformed vertices; the zero box
for an empty vertex list. -/
def GetBoundingBox (trig : Trig) (p : PolygonObject) : BoundingBox :=
  match getTransformedVertices trig p with
  | [] => ⟨0, 0, 0, 0⟩
  | v :: rest =>
    rest.foldl (fun box vertex =>
      { MinX := if vertex.x < box.MinX then vertex.x else box.MinX
        MaxX := if vertex.x > box.MaxX then vertex.x else box.MaxX
        MinY := if vertex.y < box.MinY then vertex.y else box.MinY
        MaxY := if vertex.y > box.MaxY then vertex.y else box.MaxY })
      ⟨v.x, v.y, v.x, v.y⟩

/-- `BoundingBoxesOverlap` (closed comparisons, exactly as in the source). -/
def BoundingBoxesOverlap (box1 box2 : BoundingBox) : Bool :=
  decide (box1.MinX ≤ box2.MaxX ∧ box1.MaxX ≥ box2.MinX ∧
          box1.MinY ≤ box2.MaxY ∧ box1.MaxY ≥ box2.MinY)

/-- The per-edge crossing test of the ray-casting loop of `PointInPolygon`. -/
def pipEdgeTest (point vi vj : Vector2) : Bool :=
  decide ((vi.y > point.y) ≠ (vj.y > point.y)) &&
  decide (point.x < (vj.x - vi.x) * (point.y - vi.y) / (vj.y - vi.y) + vi.x)

/-- `PointInPolygon`: even-odd ray casting; the index `j` trails `i` by one
position (starting at the last vertex), exactly as in the Go loop. -/
def PointInPolygon (point : Vector2) (vertices : List Vector2) : Bool :=
  if vertices.length < 3 then false
  else
    (List.range vertices.length).foldl
      (fun inside i =>
        let vi := vertices.getD i v0
        let vj := vertices.getD ((i + vertices.length - 1) % vertices.length) v0
        if pipEdgeTest point vi vj then !inside else inside)
      false

/-- `cross1` of `LineSegmentsIntersect`: cross product of the two direction
vectors `d1 = p2 - p1` and `d2 = p4 - p3`. -/
def segCross1 (p1 p2 p3 p4 : Vector2) : ℚ :=
  (p2.x - p1.x) * (p4.y - p3.y) - (p2.y - p1.y) * (p4.x - p3.x)

/-- `cross2` of `LineSegmentsIntersect`: cross product of `d3 = p1 - p3`
with `d2`. -/
def segCross2 (p1 _p2 p3 p4 : Vector2) : ℚ :=
  (p1.x - p3.x) * (p4.y - p3.y) - (p1.y - p3.y) * (p4.x - p3.x)

/-- `cross3` of `LineSegmentsIntersect`: cross product of `d3 = p1 - p3`
with `d1`. -/
def segCross3 (p1 p2 p3 _p4 : Vector2) : ℚ :=
  (p1.x - p3.x) * (p2.y - p1.y) - (p1.y - p3.y) * (p2.x - p1.x)

/-- The parallel-check epsilon `1e-10` of `LineSegmentsIntersect`. -/
def epsSeg : ℚ := 1 / 10 ^ 10

/-- The parameter `t1 = cross2 / cross1` of `LineSegmentsIntersect`. -/
def segT1 (p1 p2 p3 p4 : Vector2) : ℚ := segCross2 p1 p2 p3 p4 / segCross1 p1 p2 p3 p4

/-- The parameter `t2 = cross3 / cross1` of `LineSegmentsIntersect`. -/
def segT2 (p1 p2 p3 p4 : Vector2) : ℚ := segCross3 p1 p2 p3 p4 / segCross1 p1 p2 p3 p4

/-- `LineSegmentsIntersect` of `polygon_object.go`. -/
def LineSegmentsIntersect (p1 p2 p3 p4 : Vector2) : Bool :=
  if |segCross1 p1 p2 p3 p4| < epsSeg then false
  else
    decide (segT1 p1 p2 p3 p4 ≥ 0 ∧ segT1 p1 p2 p3 p4 ≤ 1 ∧
            segT2 p1 p2 p3 p4 ≥ 0 ∧ segT2 p1 p2 p3 p4 ≤ 1)

/-- The edge list of a closed polygon: vertex `i` paired with vertex
`(i+1) mod n`, as iterated by `PolygonsCollide` and `drawablePolygon.Draw`. -/
def edges (vs : List Vector2) : List (Vector2 × Vector2) :=
  (List.range vs.length).map
    (fun i => (vs.getD i v0, vs.getD ((i + 1) % vs.length) v0))

/-- The edge-versus-edge part of `PolygonsCollide`: some edge of the first
vertex list intersects some edge of the second. -/
def edgePairIntersect (vs1 vs2 : List Vector2) : Bool :=
  (edges vs1).any (fun e1 => (edges vs2).any (fun e2 =>
    LineSegmentsIntersect e1.1 e1.2 e2.1 e2.2))

/-- `PolygonsCollide` of `polygon_object.go`: bounding-box pre-check, then the
degenerate-polygon guard, then vertex containment both ways, then the edge
intersection double loop. -/
def PolygonsCollide (trig : Trig) (poly1 poly2 : PolygonObject) : Bool :=
  let box1 := GetBoundingBox trig poly1
  let box2 := GetBoundingBox trig poly2
  if !BoundingBoxesOverlap box1 box2 then false
  else
    let vertices1 := getTransformedVertices trig poly1
    let vertices2 := getTransformedVertices trig poly2
    if vertices1.length < 3 ∨ vertices2.length < 3 then false
    else
      vertices1.any (fun vertex => PointInPolygon vertex vertices2) ||
      vertices2.any (fun vertex => PointInPolygon vertex vertices1) ||
      edgePairIntersect vertices1 vertices2

/-- Go's `uint8(...)` conversion of a nonnegative float channel value:
truncate toward zero, then take the low 8 bits. -/
def quint8 (q : ℚ) : ℕ := q.floor.toNat % 256

/-- `interpolateColor`: clamp progress to `[0,1]`, convert both colors to the
16-bit channels of Go's `Color.RGBA()` (8-bit channel times `0x101`), shift
back down by 8 bits, and interpolate each channel linearly. -/
def interpolateColor (startColor endColor : RGBA) (progress : ℚ) : RGBA :=
  let prog := if progress < 0 then 0 else if progress > 1 then 1 else progress
  let ch := fun (s e : ℕ) =>
    quint8 ((((s * 257) >>> 8 : ℕ) : ℚ) * (1 - prog) + (((e * 257) >>> 8 : ℕ) : ℚ) * prog)
  { r := ch startColor.r endColor.r
    g := ch startColor.g endColor.g
    b := ch startColor.b endColor.b
    a := ch startColor.a endColor.a }

/-- `updateFade` of `polygon_object.go` (called internally by `Update`). -/
def updateFade (p : PolygonObject) : PolygonObject :=
  if !p.IsFading then p
  else
    let progress := p.FadeProgress + p.FadeSpeed
    if progress ≥ 1 then
      { p with FadeProgress := 1, Color := p.FadeEndColor, IsFading := false }
    else
      { p with FadeProgress := progress,
               Color := interpolateColor p.FadeStartColor p.FadeEndColor progress }

/-- `StartFade` of `polygon_object.go`. -/
def StartFade (p : PolygonObject) (targetColor : RGBA) (duration : ℚ) : PolygonObject :=
  { p with FadeStartColor := p.Color, FadeEndColor := targetColor,
           FadeProgress := 0, FadeSpeed := 1 / duration, IsFading := true }

/-- `SetColor` (also cancels any active fade). -/
def SetColor (p : PolygonObject) (c : RGBA) : PolygonObject :=
  { p with Color := c, IsFading := false }

/-- `SetPosition` of `polygon_object.go`. -/
def SetPosition (p : PolygonObject) (x y : ℚ) : PolygonObject :=
  { p with Position := ⟨x, y⟩ }

/-- `SetVelocity` of `polygon_object.go`. -/
def SetVelocity (p : PolygonObject) (vx vy : ℚ) : PolygonObject :=
  { p with Velocity := ⟨vx, vy⟩ }

/-- `SetRotationSpeed` of `polygon_object.go`. -/
def SetRotationSpeed (p : PolygonObject) (speed : ℚ) : PolygonObject :=
  { p with RotationSpeed := speed }

/-- `SetRotation` of `polygon_object.go`. -/
def SetRotation (p : PolygonObject) (angle : ℚ) : PolygonObject :=
  { p with Rotation := angle }

/-- `Update` of `polygon_object.go`: integrate position and rotation, apply the
single-step rotation normalization, advance the fade, then (when wrapping is
requested) apply the single-step screen wrap on each axis independently. -/
def Update (p : PolygonObject) (screenWidth screenHeight : ℚ) (withWrapping : Bool) :
    PolygonObject :=
  let px := p.Position.x + p.Velocity.x
  let py := p.Position.y + p.Velocity.y
  let rot0 := p.Rotation + p.RotationSpeed
  let rot :=
    if rot0 > 2 * mathPi then rot0 - 2 * mathPi
    else if rot0 < 0 then rot0 + 2 * mathPi
    else rot0
  let q := updateFade { p with Position := ⟨px, py⟩, Rotation := rot }
  if withWrapping then
    let wx :=
      if q.Position.x < 0 then q.Position.x + screenWidth
      else if q.Position.x > screenWidth then q.Position.x - screenWidth
      else q.Position.x
    let wy :=
      if q.Position.y < 0 then q.Position.y + screenHeight
      else if q.Position.y > screenHeight then q.Position.y - screenHeight
      else q.Position.y
    { q with Position := ⟨wx, wy⟩ }
  else q

/-- The single-step wrap of one coordinate, as the spec describes it: a
coordinate below 0 gains the screen dimension, one above it loses it. -/
def wrapStep (dim c : ℚ) : ℚ :=
  if c < 0 then c + dim else if c > dim then c - dim else c

/-- `CreateAsteroid` of `polygon_object.go`: `numVertices` vertices on an
irregular star-like closed curve of base radius `baseRadius`. -/
def CreateAsteroid (trig : Trig) (baseRadius irregularity : ℚ) (numVertices : ℕ) :
    PolygonObject :=
  let angleStep := 2 * mathPi / (numVertices : ℚ)
  let vertices := (List.range numVertices).map (fun (i : ℕ) =>
    let angle := (i : ℚ) * angleStep
    let radius := baseRadius + ((trig (angle * 3)).2 + (trig (angle * 5)).1) * irregularity
    Vector2.mk ((trig angle).1 * radius) ((trig angle).2 * radius))
  { Vertices := vertices, Position := v0, Velocity := v0, Rotation := 0,
    RotationSpeed := 0, Scale := 1, Color := colorWhite, LineWidth := 1,
    FadeStartColor := colorWhite, FadeEndColor := colorWhite,
    FadeProgress := 0, FadeSpeed := 0, IsFading := false, drawCount := 0,
    Trail := [] }

/-- The `currentSize` computation of `splitAsteroid`: bounding-box
`(width + height) / 4`. -/
def approxSize (trig : Trig) (p : PolygonObject) : ℚ :=
  let bbox := GetBoundingBox trig p
  (bbox.MaxX - bbox.MinX + bbox.MaxY - bbox.MinY) / 4

/-- The `minSize` threshold (`15.0`) of `splitAsteroid`. -/
def minSize : ℚ := 15

/-- The random draws consumed by one `splitAsteroid` call, in the order the
source draws them: `rand.Intn(5)` for the vertex count (`intn5 % 5` models the
`[0,5)` range of `Intn`), then `rand.Float64()` draws for the first child's
velocity spread and spin, then the same three draws for the second child. -/
structure SplitRand where
  intn5 : ℕ
  v1x : ℚ
  v1y : ℚ
  spin1 : ℚ
  v2x : ℚ
  v2y : ℚ
  spin2 : ℚ
deriving DecidableEq, Repr

/-- `splitAsteroid` of `main.go`, as a function of the asteroid roster: below
the minimum size the asteroid is removed outright, otherwise it is replaced by
two children at 60% of its approximate size, re-colored to a reddish tint and
started on a 120-frame fade back to white.  (Go would panic on an
out-of-range index; call sites always pass an in-range one, and the model
returns the roster unchanged there.) -/
def splitAsteroidList (trig : Trig) (r : SplitRand) (asteroids : List PolygonObject)
    (asteroidIndex : ℕ) : List PolygonObject :=
  match asteroids.get? asteroidIndex with
  | none => asteroids
  | some asteroid =>
    let currentSize := approxSize trig asteroid
    if currentSize < minSize then asteroids.eraseIdx asteroidIndex
    else
      let newSize := currentSize * (6 / 10)
      let irregularity := newSize * (3 / 10)
      let numVertices := 6 + r.intn5 % 5
      let asteroid1 := CreateAsteroid trig newSize irregularity numVertices
      let asteroid1 := SetPosition asteroid1 (asteroid.Position.x - newSize * (1 / 2))
        (asteroid.Position.y - newSize * (1 / 2))
      let asteroid1 := SetColor asteroid1 asteroid.Color
      let vel1X := asteroid.Velocity.x + (r.v1x - 1 / 2) * 2
      let vel1Y := asteroid.Velocity.y + (r.v1y - 1 / 2) * 2
      let asteroid1 := SetVelocity asteroid1 vel1X vel1Y
      let asteroid1 := SetRotationSpeed asteroid1 ((r.spin1 - 1 / 2) * (15 / 100))
      let asteroid1 := SetColor asteroid1 redColor
      let asteroid1 := StartFade asteroid1 colorWhite 120
      let asteroid2 := CreateAsteroid trig newSize irregularity numVertices
      let asteroid2 := SetPosition asteroid2 (asteroid.Position.x + newSize * (1 / 2))
        (asteroid.Position.y + newSize * (1 / 2))
      let asteroid2 := SetColor asteroid2 asteroid.Color
      let vel2X := asteroid.Velocity.x + (r.v2x - 1 / 2) * 2
      let vel2Y := asteroid.Velocity.y + (r.v2y - 1 / 2) * 2
      let asteroid2 := SetVelocity asteroid2 vel2X vel2Y
      let asteroid2 := SetRotationSpeed asteroid2 ((r.spin2 - 1 / 2) * (15 / 100))
      let asteroid2 := SetColor asteroid2 redColor
      let asteroid2 := StartFade asteroid2 colorWhite 120
      asteroids.eraseIdx asteroidIndex ++ [asteroid1, asteroid2]

/-- The inner loop of the bullet pass of `checkCollisions`: scan asteroid
indices `n-1, n-2, ..., 0` and return the first index whose asteroid collides
with the bullet.  Called with `n = asteroids.length`. -/
def hitAsteroidDesc (trig : Trig) (bullet : PolygonObject)
    (asteroids : List PolygonObject) : ℕ → Option ℕ
  | 0 => none
  | j + 1 =>
    if PolygonsCollide trig bullet (asteroids.getD j pdefault) then some j
    else hitAsteroidDesc trig bullet asteroids j

/-- The outer loop of the bullet pass of `checkCollisions`: scan bullet
indices `n-1, ..., 0`; on the first bullet that collides with some asteroid,
remove that bullet, split that asteroid, increment the score, and stop the
whole pass (the source `break`s out of the bullet loop after a hit).
Called with `n = bullets.length`. -/
def checkBulletLoop (trig : Trig) (r : SplitRand) (bullets asteroids : List PolygonObject)
    (score : ℕ) : ℕ → List PolygonObject × List PolygonObject × ℕ
  | 0 => (bullets, asteroids, score)
  | i + 1 =>
    match hitAsteroidDesc trig (bullets.getD i pdefault) asteroids asteroids.length with
    | some j => (bullets.eraseIdx i, splitAsteroidList trig r asteroids j, score + 1)
    | none => checkBulletLoop trig r bullets asteroids score i

/-- The bullet-versus-asteroid pass of `checkCollisions` of `main.go`, mapping
(bullets, asteroids, score) to the state after one collision-resolution tick. -/
def checkBulletCollisions (trig : Trig) (r : SplitRand)
    (bullets asteroids : List PolygonObject) (score : ℕ) :
    List PolygonObject × List PolygonObject × ℕ :=
  checkBulletLoop trig r bullets asteroids score bullets.length

/-- One stroked line segment emitted by drawing: start, end, line width,
color. -/
def Stroke : Type := Vector2 × Vector2 × ℚ × RGBA

/-- `drawablePolygon.Draw`: nothing for fewer than 3 vertices, otherwise one
stroke per edge of the closed polygon. -/
def drawPolyStrokes (d : List Vector2) (lineWidth : ℚ) (c : RGBA) : List Stroke :=
  if d.length < 3 then []
  else (edges d).map (fun e => (e.1, e.2, lineWidth, c))

/-- The tint applied to trail snapshot `i` of `maxN` in `PolygonObject.Draw`:
each 16-bit channel of `Color.RGBA()` is scaled by `1 - i/maxN`, truncated to
an integer, shifted down 8 bits and narrowed to `uint8`. -/
def trailTint (c : RGBA) (i maxN : ℕ) : RGBA :=
  let shade : ℚ := 1 - (i : ℚ) / (maxN : ℚ)
  let ch := fun (v : ℕ) => ((((v * 257 : ℕ) : ℚ) * shade).floor.toNat >>> 8) % 256
  ⟨ch c.r, ch c.g, ch c.b, 255⟩

/-- `ghostTrailLength` of `polygon_object.go`. -/
def ghostTrailLength : ℕ := 5

/-- `PolygonObject.Draw`, modelled as the updated object together with the
list of emitted strokes: nothing happens for fewer than 3 vertices; otherwise
the draw count is incremented, the trail snapshots are drawn tinted, the live
polygon is drawn, and on every 4th draw the current silhouette is pushed onto
the bounded trail. -/
def Draw (trig : Trig) (p : PolygonObject) : PolygonObject × List Stroke :=
  if p.Vertices.length < 3 then (p, [])
  else
    let p1 := { p with drawCount := p.drawCount + 1 }
    let maxN := p1.Trail.length
    let trailStrokes := p1.Trail.enum.flatMap
      (fun it => drawPolyStrokes it.2 p1.LineWidth (trailTint p1.Color it.1 maxN))
    let transformedVertices := getTransformedVertices trig p1
    let mainStrokes := drawPolyStrokes transformedVertices p1.LineWidth p1.Color
    let p2 :=
      if p1.drawCount % 4 == 0 then
        { p1 with Trail := (transformedVertices :: p1.Trail).take ghostTrailLength }
      else p1
    (p2, trailStrokes ++ mainStrokes)

/-! Helper lemmas about field preservation and lengths. -/

theorem updateFade_Position (p : PolygonObject) : (updateFade p).Position = p.Position := by
  simp only [updateFade]; split_ifs <;> rfl

theorem updateFade_Rotation (p : PolygonObject) : (updateFade p).Rotation = p.Rotation := by
  simp only [updateFade]; split_ifs <;> rfl

theorem updateFade_Vertices (p : PolygonObject) : (updateFade p).Vertices = p.Vertices := by
  simp only [updateFade]; split_ifs <;> rfl

theorem updateFade_Velocity (p : PolygonObject) : (updateFade p).Velocity = p.Velocity := by
  simp only [updateFade]; split_ifs <;> rfl

theorem updateFade_RotationSpeed (p : PolygonObject) :
    (updateFade p).RotationSpeed = p.RotationSpeed := by
  simp only [updateFade]; split_ifs <;> rfl

theorem updateFade_Scale (p : PolygonObject) : (updateFade p).Scale = p.Scale := by
  simp only [updateFade]; split_ifs <;> rfl

theorem updateFade_LineWidth (p : PolygonObject) : (updateFade p).LineWidth = p.LineWidth := by
  simp only [updateFade]; split_ifs <;> rfl

theorem updateFade_Trail (p : PolygonObject) : (updateFade p).Trail = p.Trail := by
  simp only [updateFade]; split_ifs <;> rfl

theorem length_getTransformedVertices (trig : Trig) (p : PolygonObject) :
    (getTransformedVertices trig p).length = p.Vertices.length := by
  simp [getTransformedVertices]

/-- A concrete cosine/sine oracle agreeing with the genuine one at angle 0
(`cos 0 = 1`, `sin 0 = 0`), used for concrete witnesses whose rotation is 0. -/
def trig0 : Trig := fun _ => (1, 0)

/-- A concrete isosceles triangle centered near `(cx, cy)` with half-width `h`,
stored in world coordinates (position 0, rotation 0, scale 1). -/
def triAt (cx cy h : ℚ) : PolygonObject :=
  { pdefault with
    Scale := 1
    Vertices := [⟨cx - h, cy - h⟩, ⟨cx + h, cy - h⟩, ⟨cx, cy + h⟩] }

/-! ## C7: bounding-box pre-check on touching boxes -/

/-- C7 counterexample: two bounding boxes that touch only at a shared boundary
(`box1.MaxX = box2.MinX`) are classified as OVERLAPPING by
`BoundingBoxesOverlap`, because the source compares with `<=`/`>=` (closed
intervals), not half-open ones.  The claim says the pre-check reports no
overlap for them; it reports overlap. -/
theorem c7_counterexample :
    (BoundingBox.mk 0 0 1 1).MaxX = (BoundingBox.mk 1 0 2 1).MinX ∧
    BoundingBoxesOverlap ⟨0, 0, 1, 1⟩ ⟨1, 0, 2, 1⟩ = true := by
  constructor
  · rfl
  · norm_num [BoundingBoxesOverlap]

/-- C7 amended: the bounding-box pre-check tests closed-interval overlap on
both axes, so two (nonempty) bounding boxes that touch only at a shared
boundary, for example `box1.MaxX` exactly equal to `box2.MinX`, are classified
as overlapping and the pre-check reports overlap. -/
theorem c7_touching_boxes_overlap (box1 box2 : BoundingBox)
    (hx : box1.MaxX = box2.MinX) (h1 : box1.MinX ≤ box1.MaxX)
    (h2 : box2.MinX ≤ box2.MaxX) (hy1 : box1.MinY ≤ box2.MaxY)
    (hy2 : box2.MinY ≤ box1.MaxY) :
    BoundingBoxesOverlap box1 box2 = true := by
  simp only [BoundingBoxesOverlap, decide_eq_true_eq, ge_iff_le]
  refine ⟨by linarith, by linarith, hy1, hy2⟩

/-- C7 witness: `c7_touching_boxes_overlap` applied to two concrete touching
boxes. -/
theorem c7_touching_boxes_overlap_witness :
    BoundingBoxesOverlap ⟨0, 0, 1, 1⟩ ⟨1, 0, 2, 1⟩ = true :=
  c7_touching_boxes_overlap ⟨0, 0, 1, 1⟩ ⟨1, 0, 2, 1⟩ rfl (by norm_num) (by norm_num)
    (by norm_num) (by norm_num)

/-! ## C5: LineSegmentsIntersect epsilon behavior -/

/-- C5 counterexample: two segments sharing a start point whose direction
cross product is `1e-11` — nonzero, so the segments are NOT parallel — have
both computed intersection parameters `t1 = t2 = 0` inside `[0, 1]`, yet
`LineSegmentsIntersect` returns false, because the epsilon cut-off `1e-10`
also rejects non-parallel pairs with tiny cross products.  This falsifies the
claim that for non-parallel segments the result is true iff both parameters
lie in `[0, 1]`. -/
theorem c5_counterexample :
    segCross1 ⟨0, 0⟩ ⟨1, 0⟩ ⟨0, 0⟩ ⟨1, 1 / 10 ^ 11⟩ ≠ 0 ∧
    segT1 ⟨0, 0⟩ ⟨1, 0⟩ ⟨0, 0⟩ ⟨1, 1 / 10 ^ 11⟩ = 0 ∧
    segT2 ⟨0, 0⟩ ⟨1, 0⟩ ⟨0, 0⟩ ⟨1, 1 / 10 ^ 11⟩ = 0 ∧
    LineSegmentsIntersect ⟨0, 0⟩ ⟨1, 0⟩ ⟨0, 0⟩ ⟨1, 1 / 10 ^ 11⟩ = false := by
  refine ⟨by norm_num [segCross1], by norm_num [segT1, segCross2, segCross1],
    by norm_num [segT2, segCross3, segCross1], ?_⟩
  have hc : |segCross1 ⟨0, 0⟩ ⟨1, 0⟩ ⟨0, 0⟩ ⟨1, 1 / 10 ^ 11⟩| < epsSeg := by
    have hv : segCross1 ⟨0, 0⟩ ⟨1, 0⟩ ⟨0, 0⟩ ⟨1, 1 / 10 ^ 11⟩ = 1 / 10 ^ 11 := by
      norm_num [segCross1]
    rw [hv, abs_of_nonneg (by norm_num)]
    norm_num [epsSeg]
  rw [LineSegmentsIntersect, if_pos hc]

/-- C5 amended: `LineSegmentsIntersect` returns false whenever the cross
product of the two direction vectors has absolute value below `1e-10`; in
particular every pair of exactly parallel segments (cross product zero),
including collinear overlapping ones, is reported as non-intersecting.  For
segments whose cross product has absolute value at least `1e-10` (rather than
all non-parallel ones) it returns true iff both computed intersection
parameters `t1` and `t2` lie in `[0, 1]`. -/
theorem c5_eps_and_parameter_window (p1 p2 p3 p4 : Vector2) :
    (|segCross1 p1 p2 p3 p4| < epsSeg → LineSegmentsIntersect p1 p2 p3 p4 = false) ∧
    (segCross1 p1 p2 p3 p4 = 0 → LineSegmentsIntersect p1 p2 p3 p4 = false) ∧
    (epsSeg ≤ |segCross1 p1 p2 p3 p4| →
      (LineSegmentsIntersect p1 p2 p3 p4 = true ↔
        segT1 p1 p2 p3 p4 ≥ 0 ∧ segT1 p1 p2 p3 p4 ≤ 1 ∧
        segT2 p1 p2 p3 p4 ≥ 0 ∧ segT2 p1 p2 p3 p4 ≤ 1)) := by
  refine ⟨fun h => ?_, fun h => ?_, fun h => ?_⟩
  · rw [LineSegmentsIntersect, if_pos h]
  · rw [LineSegmentsIntersect, if_pos]
    rw [h]
    norm_num [epsSeg]
  · rw [LineSegmentsIntersect, if_neg (not_lt.mpr h)]
    simp

/-- C5 witness: `c5_eps_and_parameter_window` applied to concrete segments —
collinear overlapping segments on the x-axis are reported as non-intersecting,
and two perpendicular segments sharing an endpoint (cross product 1,
parameters 0) are reported as intersecting. -/
theorem c5_eps_and_parameter_window_witness :
    LineSegmentsIntersect ⟨0, 0⟩ ⟨2, 0⟩ ⟨1, 0⟩ ⟨3, 0⟩ = false ∧
    LineSegmentsIntersect ⟨0, 0⟩ ⟨1, 0⟩ ⟨0, 0⟩ ⟨0, 1⟩ = true := by
  constructor
  · exact (c5_eps_and_parameter_window ⟨0, 0⟩ ⟨2, 0⟩ ⟨1, 0⟩ ⟨3, 0⟩).2.1
      (by norm_num [segCross1])
  · have hc : epsSeg ≤ |segCross1 ⟨0, 0⟩ ⟨1, 0⟩ ⟨0, 0⟩ ⟨0, 1⟩| := by
      have hv : segCross1 ⟨0, 0⟩ ⟨1, 0⟩ ⟨0, 0⟩ ⟨0, 1⟩ = 1 := by norm_num [segCross1]
      rw [hv, abs_one]
      norm_num [epsSeg]
    exact ((c5_eps_and_parameter_window ⟨0, 0⟩ ⟨1, 0⟩ ⟨0, 0⟩ ⟨0, 1⟩).2.2 hc).mpr
      (by norm_num [segT1, segT2, segCross1, segCross2, segCross3])

/-! ## C1: disjoint bounding boxes mean no collision -/

/-- C1: if the axis-aligned bounding boxes of the two polygon objects
(computed by `GetBoundingBox` as min/max over the transformed vertices) are
disjoint on at least one axis, `PolygonsCollide` returns false — the result
is decided by the bounding-box pre-check alone, before any point-in-polygon
or edge-intersection test. -/
theorem c1_disjoint_boxes_no_collision (trig : Trig) (poly1 poly2 : PolygonObject)
    (h : (GetBoundingBox trig poly1).MaxX < (GetBoundingBox trig poly2).MinX ∨
         (GetBoundingBox trig poly2).MaxX < (GetBoundingBox trig poly1).MinX ∨
         (GetBoundingBox trig poly1).MaxY < (GetBoundingBox trig poly2).MinY ∨
         (GetBoundingBox trig poly2).MaxY < (GetBoundingBox trig poly1).MinY) :
    PolygonsCollide trig poly1 poly2 = false := by
  have hbb : BoundingBoxesOverlap (GetBoundingBox trig poly1) (GetBoundingBox trig poly2)
      = false := by
    simp only [BoundingBoxesOverlap, decide_eq_false_iff_not, ge_iff_le]
    rintro ⟨h1, h2, h3, h4⟩
    rcases h with h | h | h | h <;> linarith
  simp only [PolygonsCollide, hbb]
  rfl

/-- C1 witness: `c1_disjoint_boxes_no_collision` applied to two concrete
triangles far apart on the x-axis. -/
theorem c1_disjoint_boxes_no_collision_witness :
    (GetBoundingBox trig0 (triAt 0 0 1)).MaxX < (GetBoundingBox trig0 (triAt 100 0 1)).MinX ∧
    PolygonsCollide trig0 (triAt 0 0 1) (triAt 100 0 1) = false := by
  have hx : (GetBoundingBox trig0 (triAt 0 0 1)).MaxX <
      (GetBoundingBox trig0 (triAt 100 0 1)).MinX := by
    norm_num [GetBoundingBox, getTransformedVertices, triAt, pdefault, trig0, v0, List.foldl]
  exact ⟨hx, c1_disjoint_boxes_no_collision trig0 _ _ (Or.inl hx)⟩

/-! ## C4: screen wrap in Update -/

/-- Characterization of the position produced by `Update` with wrapping: the
velocity is added first, then each coordinate is wrapped in a single step. -/
theorem update_Position_wrap (p : PolygonObject) (w h : ℚ) :
    (Update p w h true).Position.x = wrapStep w (p.Position.x + p.Velocity.x) ∧
    (Update p w h true).Position.y = wrapStep h (p.Position.y + p.Velocity.y) := by
  simp only [Update, updateFade_Position, wrapStep]
  exact ⟨rfl, rfl⟩

/-- The concrete object of the C4 counterexample: at `x = 0` with horizontal
velocity `-800`, a displacement of magnitude equal to the screen width. -/
def pWrapBig : PolygonObject := { pdefault with Position := ⟨0, 0⟩, Velocity := ⟨-800, 0⟩ }

/-- C4 counterexample: the final clause of the claim — a displacement of
magnitude at least the screen width never lands the coordinate inside
`[0, screenWidth]` — is false: from `x = 0` with velocity `-800` and screen
width 800, the single-step wrap lands exactly at `x = 0`, inside the range. -/
theorem c4_counterexample :
    |pWrapBig.Velocity.x| ≥ 800 ∧
    (Update pWrapBig 800 600 true).Position.x = 0 ∧
    0 ≤ (Update pWrapBig 800 600 true).Position.x ∧
    (Update pWrapBig 800 600 true).Position.x ≤ 800 := by
  have hx : (Update pWrapBig 800 600 true).Position.x = 0 := by
    rw [(update_Position_wrap pWrapBig 800 600).1]
    norm_num [pWrapBig, pdefault, wrapStep, v0]
  refine ⟨?_, hx, by rw [hx], by rw [hx]; norm_num⟩
  have hv : pWrapBig.Velocity.x = -800 := rfl
  rw [hv, abs_of_nonpos (by norm_num)]
  norm_num

/-- C4 amended: `Update` with wrapping first adds the velocity to the
position and then wraps each coordinate independently in a single step — a
coordinate below 0 gains the screen dimension and one above the screen
dimension loses it; an object at `x = -1` with zero velocity and screen width
800 has `x = 799` after one update; and a displacement of magnitude at least
the screen width in one tick is NOT GUARANTEED to land the coordinate inside
`[0, screenWidth]` (the single-step wrap can leave it outside). -/
theorem c4_single_step_wrap :
    (∀ (p : PolygonObject) (w h : ℚ),
      (Update p w h true).Position.x = wrapStep w (p.Position.x + p.Velocity.x) ∧
      (Update p w h true).Position.y = wrapStep h (p.Position.y + p.Velocity.y)) ∧
    (Update { pdefault with Position := ⟨-1, 0⟩ } 800 600 true).Position.x = 799 ∧
    (∃ p : PolygonObject, |p.Velocity.x| ≥ 800 ∧
      ¬(0 ≤ (Update p 800 600 true).Position.x ∧
        (Update p 800 600 true).Position.x ≤ 800)) := by
  refine ⟨update_Position_wrap, ?_, ?_⟩
  · rw [(update_Position_wrap { pdefault with Position := ⟨-1, 0⟩ } 800 600).1]
    norm_num [pdefault, wrapStep, v0]
  · refine ⟨{ pdefault with Position := ⟨0, 0⟩, Velocity := ⟨1601, 0⟩ }, ?_, ?_⟩
    · have hv : ({ pdefault with Position := ⟨0, 0⟩, Velocity := ⟨1601, 0⟩ }
          : PolygonObject).Velocity.x = 1601 := rfl
      rw [hv, abs_of_nonneg (by norm_num)]
      norm_num
    · rw [not_and_or]
      right
      rw [(update_Position_wrap { pdefault with Position := ⟨0, 0⟩, Velocity := ⟨1601, 0⟩ }
        800 600).1]
      norm_num [wrapStep]

/-! ## C6: rotation normalization in Update -/

/-- Characterization of the rotation produced by `Update`: the rotation speed
is added, then one full turn is subtracted or added when the sum leaves
`(0, 2*pi)` on either side (strict comparisons). -/
theorem update_Rotation_eq (p : PolygonObject) (w h : ℚ) (b : Bool) :
    (Update p w h b).Rotation =
      if p.Rotation + p.RotationSpeed > 2 * mathPi then
        p.Rotation + p.RotationSpeed - 2 * mathPi
      else if p.Rotation + p.RotationSpeed < 0 then
        p.Rotation + p.RotationSpeed + 2 * mathPi
      else p.Rotation + p.RotationSpeed := by
  cases b
  · exact updateFade_Rotation _
  · exact updateFade_Rotation _

/-- The concrete object of the C6 counterexample: rotation and rotation speed
both equal to pi, so the integrated rotation is exactly one full turn. -/
def pRotEdge : PolygonObject := { pdefault with Rotation := mathPi, RotationSpeed := mathPi }

/-- C6 counterexample: an object whose rotation is in `[0, 2*pi)` and whose
rotation speed has magnitude below one turn, for which `Update` produces a
rotation of exactly `2*pi` — NOT in `[0, 2*pi)` — because the source only
corrects rotations strictly greater than `2*pi`. -/
theorem c6_counterexample :
    (0 ≤ pRotEdge.Rotation ∧ pRotEdge.Rotation < 2 * mathPi ∧
      |pRotEdge.RotationSpeed| < 2 * mathPi) ∧
    (Update pRotEdge 800 600 true).Rotation = 2 * mathPi ∧
    ¬((Update pRotEdge 800 600 true).Rotation < 2 * mathPi) := by
  have hpi : (0 : ℚ) < mathPi := by norm_num [mathPi]
  have hr : pRotEdge.Rotation = mathPi := rfl
  have hs : pRotEdge.RotationSpeed = mathPi := rfl
  have hrot : (Update pRotEdge 800 600 true).Rotation = 2 * mathPi := by
    rw [update_Rotation_eq, hr, hs, if_neg (by intro hgt; linarith), if_neg (by linarith)]
    ring
  refine ⟨⟨by rw [hr]; linarith, by rw [hr]; linarith, ?_⟩, hrot, by rw [hrot]; linarith⟩
  rw [hs, abs_of_nonneg (le_of_lt hpi)]
  linarith

/-- C6 amended: for every polygon object whose rotation is in `[0, 2*pi)` and
whose per-tick rotation speed has magnitude smaller than one full turn, the
rotation after any call to `Update` lies in the CLOSED interval `[0, 2*pi]`
(it can land exactly on `2*pi`, which the single-step correction does not
fold back to 0). -/
theorem c6_rotation_stays_normalized (p : PolygonObject) (w h : ℚ) (b : Bool)
    (h0 : 0 ≤ p.Rotation) (h1 : p.Rotation < 2 * mathPi)
    (h2 : |p.RotationSpeed| < 2 * mathPi) :
    0 ≤ (Update p w h b).Rotation ∧ (Update p w h b).Rotation ≤ 2 * mathPi := by
  obtain ⟨hs1, hs2⟩ := abs_lt.mp h2
  rw [update_Rotation_eq]
  split_ifs with ha hb2 <;> constructor <;> linarith

/-- C6 witness: `c6_rotation_stays_normalized` applied to the default object
(rotation 0, rotation speed 0). -/
theorem c6_rotation_stays_normalized_witness :
    0 ≤ (Update pdefault 800 600 true).Rotation ∧
    (Update pdefault 800 600 true).Rotation ≤ 2 * mathPi := by
  have hpi : (0 : ℚ) < mathPi := by norm_num [mathPi]
  refine c6_rotation_stays_normalized pdefault 800 600 true (le_refl 0) (by
    show (0 : ℚ) < 2 * mathPi
    linarith) ?_
  show |(0 : ℚ)| < 2 * mathPi
  rw [abs_zero]
  linarith

/-! ## C10: fields untouched by Update -/

/-- C10: `Update` leaves `Vertices`, `Velocity`, `RotationSpeed`, `Scale`,
`LineWidth` and `Trail` unchanged for every screen size and wrap flag — it
only modifies the position, the rotation, and the fade sub-state. -/
theorem c10_update_preserves_fields (p : PolygonObject) (w h : ℚ) (b : Bool) :
    (Update p w h b).Vertices = p.Vertices ∧
    (Update p w h b).Velocity = p.Velocity ∧
    (Update p w h b).RotationSpeed = p.RotationSpeed ∧
    (Update p w h b).Scale = p.Scale ∧
    (Update p w h b).LineWidth = p.LineWidth ∧
    (Update p w h b).Trail = p.Trail := by
  cases b <;>
    exact ⟨updateFade_Vertices _, updateFade_Velocity _, updateFade_RotationSpeed _,
      updateFade_Scale _, updateFade_LineWidth _, updateFade_Trail _⟩

/-! ## C8: silent handling of degenerate polygons -/

/-- C8: for polygons with fewer than 3 vertices the core silently skips work
instead of failing: `PointInPolygon` is false for every query point, `Draw`
returns the object unchanged and emits no strokes, and `PolygonsCollide` is
false whenever either polygon is degenerate (in particular when the bounding
boxes overlap).  All modelled operations are total — none returns an error. -/
theorem c8_degenerate_polygons_skipped (trig : Trig) (point : Vector2)
    (vertices : List Vector2) (p poly1 poly2 : PolygonObject) :
    (vertices.length < 3 → PointInPolygon point vertices = false) ∧
    (p.Vertices.length < 3 → Draw trig p = (p, [])) ∧
    (poly1.Vertices.length < 3 ∨ poly2.Vertices.length < 3 →
      PolygonsCollide trig poly1 poly2 = false) := by
  refine ⟨fun hv => ?_, fun hp => ?_, fun hd => ?_⟩
  · rw [PointInPolygon, if_pos hv]
  · rw [Draw, if_pos hp]
  · have hlen : (getTransformedVertices trig poly1).length < 3 ∨
        (getTransformedVertices trig poly2).length < 3 := by
      rw [length_getTransformedVertices, length_getTransformedVertices]
      exact hd
    simp only [PolygonsCollide]
    split_ifs <;> rfl

/-- C8 witness: `c8_degenerate_polygons_skipped` applied to a concrete
2-vertex polygon (whose bounding box overlaps itself). -/
theorem c8_degenerate_polygons_skipped_witness :
    PointInPolygon v0 [⟨0, 0⟩, ⟨1, 0⟩] = false ∧
    Draw trig0 { pdefault with Vertices := [⟨0, 0⟩, ⟨1, 0⟩] } =
      ({ pdefault with Vertices := [⟨0, 0⟩, ⟨1, 0⟩] }, []) ∧
    PolygonsCollide trig0 { pdefault with Vertices := [⟨0, 0⟩, ⟨1, 0⟩] }
      { pdefault with Vertices := [⟨0, 0⟩, ⟨1, 0⟩] } = false := by
  refine ⟨?_, ?_, ?_⟩
  · exact (c8_degenerate_polygons_skipped trig0 v0 [⟨0, 0⟩, ⟨1, 0⟩] pdefault pdefault
      pdefault).1 (by norm_num)
  · exact (c8_degenerate_polygons_skipped trig0 v0 []
      { pdefault with Vertices := [⟨0, 0⟩, ⟨1, 0⟩] } pdefault pdefault).2.1 (by
        show ([(⟨0, 0⟩ : Vector2), ⟨1, 0⟩]).length < 3
        norm_num)
  · exact (c8_degenerate_polygons_skipped trig0 v0 [] pdefault
      { pdefault with Vertices := [⟨0, 0⟩, ⟨1, 0⟩] }
      { pdefault with Vertices := [⟨0, 0⟩, ⟨1, 0⟩] }).2.2 (Or.inl (by
        show ([(⟨0, 0⟩ : Vector2), ⟨1, 0⟩]).length < 3
        norm_num))

/-! ## C9: symmetry of PolygonsCollide -/

/-- Swapping the two segments negates all three cross products of
`LineSegmentsIntersect`, exchanges the roles of `t1` and `t2`, and leaves the
result unchanged. -/
theorem segSymm (p1 p2 p3 p4 : Vector2) :
    LineSegmentsIntersect p3 p4 p1 p2 = LineSegmentsIntersect p1 p2 p3 p4 := by
  have h1 : segCross1 p3 p4 p1 p2 = -segCross1 p1 p2 p3 p4 := by
    simp only [segCross1]; ring
  have h2 : segCross2 p3 p4 p1 p2 = -segCross3 p1 p2 p3 p4 := by
    simp only [segCross2, segCross3]; ring
  have h3 : segCross3 p3 p4 p1 p2 = -segCross2 p1 p2 p3 p4 := by
    simp only [segCross2, segCross3]; ring
  have ht1 : segT1 p3 p4 p1 p2 = segT2 p1 p2 p3 p4 := by
    simp only [segT1, segT2]; rw [h2, h1, neg_div_neg_eq]
  have ht2 : segT2 p3 p4 p1 p2 = segT1 p1 p2 p3 p4 := by
    simp only [segT1, segT2]; rw [h3, h1, neg_div_neg_eq]
  simp only [LineSegmentsIntersect, h1, abs_neg, ht1, ht2]
  split_ifs with h
  · rfl
  · exact decide_eq_decide.mpr (by tauto)

/-- `BoundingBoxesOverlap` is symmetric (the four closed comparisons swap in
pairs). -/
theorem bbSymm (box1 box2 : BoundingBox) :
    BoundingBoxesOverlap box1 box2 = BoundingBoxesOverlap box2 box1 := by
  simp only [BoundingBoxesOverlap, ge_iff_le]
  exact decide_eq_decide.mpr (by tauto)

/-- The edge-versus-edge double loop is symmetric in the two vertex lists. -/
theorem edgePairIntersect_symm (vs1 vs2 : List Vector2) :
    edgePairIntersect vs2 vs1 = edgePairIntersect vs1 vs2 := by
  simp only [edgePairIntersect]
  rw [Bool.eq_iff_iff]
  simp only [List.any_eq_true]
  constructor
  · rintro ⟨e1, he1, e2, he2, h⟩
    exact ⟨e2, he2, e1, he1, by rw [segSymm]; exact h⟩
  · rintro ⟨e1, he1, e2, he2, h⟩
    exact ⟨e2, he2, e1, he1, by rw [segSymm]; exact h⟩

/-- C9: `PolygonsCollide` is symmetric — for every cosine/sine oracle and
every two polygon objects, `PolygonsCollide(A, B)` returns the same boolean
as `PolygonsCollide(B, A)`. -/
theorem c9_polygons_collide_symmetric (trig : Trig) (poly1 poly2 : PolygonObject) :
    PolygonsCollide trig poly1 poly2 = PolygonsCollide trig poly2 poly1 := by
  simp only [PolygonsCollide]
  rw [bbSymm (GetBoundingBox trig poly2) (GetBoundingBox trig poly1),
    edgePairIntersect_symm (getTransformedVertices trig poly1)
      (getTransformedVertices trig poly2)]
  split_ifs
  · rfl
  · rfl
  · tauto
  · tauto
  · ac_rfl

/-! ## C3: the split operation -/

/-- Number of vertices generated by `CreateAsteroid`. -/
theorem length_CreateAsteroid (trig : Trig) (baseRadius irregularity : ℚ) (n : ℕ) :
    (CreateAsteroid trig baseRadius irregularity n).Vertices.length = n := by
  simp only [CreateAsteroid, List.length_map, List.length_range]

/-- C3: splitting the asteroid at a valid index computes the approximate
radius `(width + height) / 4` of its bounding box; below the threshold 15 the
asteroid is removed with no replacement (roster shrinks by one), otherwise it
is removed and exactly two children are appended (roster grows by one), each
generated by the asteroid factory at 60% of the parent approximate radius
with vertex count `6 + Intn(5)` in `[6, 10]`, velocity equal to the parent
velocity plus the `(rand - 0.5) * 2` spread on each axis, and each started on
a fade from the reddish tint `(255, 100, 100, 255)` to white with progress 0
and speed `1/120` (120 ticks). -/
theorem c3_split_asteroid (trig : Trig) (r : SplitRand) (asteroids : List PolygonObject)
    (i : ℕ) (a : PolygonObject) (h : asteroids.get? i = some a) :
    (approxSize trig a < minSize →
      splitAsteroidList trig r asteroids i = asteroids.eraseIdx i ∧
      (splitAsteroidList trig r asteroids i).length + 1 = asteroids.length) ∧
    (minSize ≤ approxSize trig a →
      (splitAsteroidList trig r asteroids i).length = asteroids.length + 1 ∧
      ∃ c1 c2 : PolygonObject,
        splitAsteroidList trig r asteroids i = asteroids.eraseIdx i ++ [c1, c2] ∧
        c1.Vertices = (CreateAsteroid trig (approxSize trig a * (6 / 10))
          (approxSize trig a * (6 / 10) * (3 / 10)) (6 + r.intn5 % 5)).Vertices ∧
        c2.Vertices = (CreateAsteroid trig (approxSize trig a * (6 / 10))
          (approxSize trig a * (6 / 10) * (3 / 10)) (6 + r.intn5 % 5)).Vertices ∧
        c1.Vertices.length = 6 + r.intn5 % 5 ∧
        c2.Vertices.length = 6 + r.intn5 % 5 ∧
        6 ≤ 6 + r.intn5 % 5 ∧ 6 + r.intn5 % 5 ≤ 10 ∧
        c1.Velocity = ⟨a.Velocity.x + (r.v1x - 1 / 2) * 2,
          a.Velocity.y + (r.v1y - 1 / 2) * 2⟩ ∧
        c2.Velocity = ⟨a.Velocity.x + (r.v2x - 1 / 2) * 2,
          a.Velocity.y + (r.v2y - 1 / 2) * 2⟩ ∧
        c1.IsFading = true ∧ c2.IsFading = true ∧
        c1.FadeStartColor = redColor ∧ c2.FadeStartColor = redColor ∧
        c1.FadeEndColor = colorWhite ∧ c2.FadeEndColor = colorWhite ∧
        c1.FadeSpeed = 1 / 120 ∧ c2.FadeSpeed = 1 / 120 ∧
        c1.FadeProgress = 0 ∧ c2.FadeProgress = 0) := by
  have hi : i < asteroids.length := (List.get?_eq_some.mp h).1
  constructor
  · intro hlt
    have hres : splitAsteroidList trig r asteroids i = asteroids.eraseIdx i := by
      simp only [splitAsteroidList, h]
      rw [if_pos hlt]
    refine ⟨hres, ?_⟩
    rw [hres, List.length_eraseIdx]
    simp only [hi, if_true]
    omega
  · intro hge
    simp only [splitAsteroidList, h]
    rw [if_neg (not_lt.mpr hge)]
    constructor
    · rw [List.length_append, List.length_eraseIdx]
      simp only [hi, if_true]
      simp
      omega
    · refine ⟨_, _, rfl, ?_⟩
      repeat' apply And.intro
      all_goals
        first
        | rfl
        | omega
        | simp [StartFade, SetColor, SetRotationSpeed, SetVelocity, SetPosition,
            length_CreateAsteroid]

/-- C3 witness: `c3_split_asteroid` applied to a one-asteroid roster whose
asteroid has approximate radius 20 (above the threshold): the roster length
becomes 2. -/
theorem c3_split_asteroid_witness :
    minSize ≤ approxSize trig0 (triAt 0 0 20) ∧
    (splitAsteroidList trig0 ⟨0, 0, 0, 0, 0, 0, 0⟩ [triAt 0 0 20] 0).length = 2 := by
  have hsz : minSize ≤ approxSize trig0 (triAt 0 0 20) := by
    norm_num [approxSize, GetBoundingBox, getTransformedVertices, triAt, pdefault, v0,
      trig0, minSize, List.foldl]
  have hlen := ((c3_split_asteroid trig0 ⟨0, 0, 0, 0, 0, 0, 0⟩ [triAt 0 0 20] 0
    (triAt 0 0 20) rfl).2 hsz).1
  refine ⟨hsz, ?_⟩
  rw [hlen]
  rfl

/-! ## C2: collision-resolution tick for bullets -/

/-- C2 failing input, evaluated: two bullets and two asteroids, the bullet at
index 1 overlapping the asteroid at index 1 AND the bullet at index 0
overlapping the asteroid at index 0 (both asteroids below the minimum size,
so a split removes them outright).  After one collision-resolution tick the
code has removed only bullet 1 and asteroid 1 and scored 1 — the bullet at
index 0 is still present and still collides with the remaining asteroid,
because the source `break`s out of the whole bullet loop after the first hit
(its own comment says "Move to next bullet").  Under the claim every bullet
is checked in the same tick, so both bullets would be removed and the score
would be 2. -/
theorem c2_break_skips_remaining_bullets :
    checkBulletCollisions trig0 ⟨0, 0, 0, 0, 0, 0, 0⟩
      [triAt 300 300 1, triAt 100 100 1] [triAt 300 300 5, triAt 100 100 5] 0
      = ([triAt 300 300 1], [triAt 300 300 5], 1) ∧
    PolygonsCollide trig0 (triAt 300 300 1) (triAt 300 300 5) = true := by
  constructor
  · norm_num [checkBulletCollisions, checkBulletLoop, hitAsteroidDesc, splitAsteroidList,
      approxSize, minSize, PolygonsCollide, GetBoundingBox, getTransformedVertices,
      BoundingBoxesOverlap, PointInPolygon, pipEdgeTest, edges, edgePairIntersect,
      trig0, triAt, pdefault, v0, List.range_succ, List.foldl, List.getD, List.eraseIdx,
      List.any_cons, List.any_nil]
  · norm_num [PolygonsCollide, GetBoundingBox, getTransformedVertices,
      BoundingBoxesOverlap, PointInPolygon, pipEdgeTest, edges, edgePairIntersect,
      trig0, triAt, pdefault, v0, List.range_succ, List.foldl, List.getD,
      List.any_cons, List.any_nil]
